import Mathlib

/-!
Verification of the DRIVERS repository's driver-domain logic.

The definitions below are a shallow embedding of the TypeScript sources:
  * `HoursOfService` and its operations embed
    `src/unnamed/part_003` (hours-of-service.entity.ts);
  * `Driver`, `DriverStatus` and the service operations embed
    `src/drivers-service/src/domain/models/driver.entity.ts` and
    `src/drivers-service/src/application/application.module.ts` (DriverService);
  * `EmergencyContact` and `Endorsement` embed the corresponding entity files.

Hours are JS numbers used only through `+`, `-`, `max` and comparisons on
small decimal values; they are embedded as rationals.  Timestamps (JS `Date`)
are embedded as integers (milliseconds since epoch), since JS compares dates
by their millisecond value.  Fallible methods (TS `throw`) become `Except`.
-/

namespace Drivers

/-- Equality of embedded operation outcomes is decidable, so that witnesses
can be checked on concrete inputs. -/
instance {ε α : Type} [DecidableEq ε] [DecidableEq α] : DecidableEq (Except ε α) :=
  fun x y =>
    match x, y with
    | .error a, .error b =>
      if h : a = b then .isTrue (by rw [h])
      else .isFalse (by intro hc; cases hc; exact h rfl)
    | .ok a, .ok b =>
      if h : a = b then .isTrue (by rw [h])
      else .isFalse (by intro hc; cases hc; exact h rfl)
    | .error _, .ok _ => .isFalse (by intro hc; cases hc)
    | .ok _, .error _ => .isFalse (by intro hc; cases hc)

/-! ## HoursOfService (src/unnamed/part_003) -/

/-- Error cases of `InvalidHoursOfServiceError`, one constructor per distinct
`throw` site message in the source. -/
inductive HosError where
  | negativeDrivingAdd
  | negativeDutyAdd
  | negativeBreakInput
  | negativeDrivingHours
  | negativeDutyHours
  | negativeTimeUntilBreak
  | drivingExceedsDuty
  | drivingOverDailyMax
  | dutyOverDailyMax
deriving DecidableEq, Repr

/-- The three numeric fields of the `HoursOfService` entity.  The optional
`id` and `driverId` fields are carried by no business rule and are omitted. -/
structure HoursOfService where
  drivingHoursToday : ℚ
  dutyHoursToday : ℚ
  timeUntilBreakRequired : ℚ
deriving DecidableEq, Repr

/-- `HoursOfService.MAX_DRIVING_HOURS_PER_DAY = 11`. -/
def MAX_DRIVING_HOURS_PER_DAY : ℚ := 11

/-- `HoursOfService.MAX_DUTY_HOURS_PER_DAY = 14`. -/
def MAX_DUTY_HOURS_PER_DAY : ℚ := 14

/-- `HoursOfService.REQUIRED_BREAK_TIME = 0.5`. -/
def REQUIRED_BREAK_TIME : ℚ := 1/2

/-- Embedding of the private static `HoursOfService.validateHours`
(part_003 lines 101-129): the checks run in source order and the first
violated one raises. -/
def validateHours (drivingHours dutyHours timeUntilBreak : ℚ) :
    Except HosError Unit :=
  if drivingHours < 0 then .error .negativeDrivingHours
  else if dutyHours < 0 then .error .negativeDutyHours
  else if timeUntilBreak < 0 then .error .negativeTimeUntilBreak
  else if drivingHours > dutyHours then .error .drivingExceedsDuty
  else if drivingHours > MAX_DRIVING_HOURS_PER_DAY then .error .drivingOverDailyMax
  else if dutyHours > MAX_DUTY_HOURS_PER_DAY then .error .dutyOverDailyMax
  else .ok ()

/-- The conjunction of the constraints `validateHours` enforces. -/
abbrev HoursBounds (a b c : ℚ) : Prop :=
  0 ≤ a ∧ 0 ≤ b ∧ 0 ≤ c ∧ a ≤ b ∧
    a ≤ MAX_DRIVING_HOURS_PER_DAY ∧ b ≤ MAX_DUTY_HOURS_PER_DAY

/-- Embedding of the factory `HoursOfService.create` (part_003 lines 138-159). -/
def HoursOfService.create (drivingHoursToday dutyHoursToday timeUntilBreakRequired : ℚ) :
    Except HosError HoursOfService :=
  match validateHours drivingHoursToday dutyHoursToday timeUntilBreakRequired with
  | .error e => .error e
  | .ok _ => .ok ⟨drivingHoursToday, dutyHoursToday, timeUntilBreakRequired⟩

/-- Embedding of `HoursOfService.createDefault` (part_003 lines 167-175). -/
def HoursOfService.createDefault : HoursOfService :=
  ⟨0, 0, REQUIRED_BREAK_TIME⟩

/-- Embedding of `HoursOfService.addDrivingTime` (part_003 lines 228-243). -/
def HoursOfService.addDrivingTime (s : HoursOfService) (hours : ℚ) :
    Except HosError HoursOfService :=
  if hours < 0 then .error .negativeDrivingAdd
  else
    let newDrivingHours := s.drivingHoursToday + hours
    let newDutyHours := s.dutyHoursToday + hours
    let newTimeUntilBreak := max 0 (s.timeUntilBreakRequired - hours)
    match validateHours newDrivingHours newDutyHours newTimeUntilBreak with
    | .error e => .error e
    | .ok _ => .ok ⟨newDrivingHours, newDutyHours, newTimeUntilBreak⟩

/-- Embedding of `HoursOfService.addOnDutyTime` (part_003 lines 251-262). -/
def HoursOfService.addOnDutyTime (s : HoursOfService) (hours : ℚ) :
    Except HosError HoursOfService :=
  if hours < 0 then .error .negativeDutyAdd
  else
    let newDutyHours := s.dutyHoursToday + hours
    match validateHours s.drivingHoursToday newDutyHours s.timeUntilBreakRequired with
    | .error e => .error e
    | .ok _ => .ok ⟨s.drivingHoursToday, newDutyHours, s.timeUntilBreakRequired⟩

/-- Embedding of `HoursOfService.takeBreak` (part_003 lines 269-276): after
the negativity check the argument is unused and the countdown is reset to the
constant. -/
def HoursOfService.takeBreak (s : HoursOfService) (hours : ℚ) :
    Except HosError HoursOfService :=
  if hours < 0 then .error .negativeBreakInput
  else .ok ⟨s.drivingHoursToday, s.dutyHoursToday, REQUIRED_BREAK_TIME⟩

/-- Embedding of `HoursOfService.resetForNewDay` (part_003 lines 281-285). -/
def HoursOfService.resetForNewDay (_s : HoursOfService) : HoursOfService :=
  ⟨0, 0, REQUIRED_BREAK_TIME⟩

/-- A TS method that throws leaves the receiver unchanged; `applyExcept`
turns a fallible update into the resulting state. -/
def applyExcept (s : HoursOfService) (r : Except HosError HoursOfService) :
    HoursOfService :=
  match r with
  | .ok s2 => s2
  | .error _ => s

/-- One mutating call on a `HoursOfService` record. -/
inductive HosOp where
  | addDriving (hours : ℚ)
  | addOnDuty (hours : ℚ)
  | takeBreak (hours : ℚ)
  | resetForNewDay
deriving DecidableEq, Repr

/-- Runs one call; a call that throws leaves the state unchanged. -/
def applyHosOp (s : HoursOfService) (op : HosOp) : HoursOfService :=
  match op with
  | .addDriving hours => applyExcept s (s.addDrivingTime hours)
  | .addOnDuty hours => applyExcept s (s.addOnDutyTime hours)
  | .takeBreak hours => applyExcept s (s.takeBreak hours)
  | .resetForNewDay => s.resetForNewDay

/-- Runs a sequence of calls from an initial state. -/
def runHosOps (s : HoursOfService) (ops : List HosOp) : HoursOfService :=
  ops.foldl applyHosOp s

/-- The hours-of-service invariant. -/
abbrev HosInv (s : HoursOfService) : Prop :=
  HoursBounds s.drivingHoursToday s.dutyHoursToday s.timeUntilBreakRequired

theorem validateHours_eq_ok_iff (a b c : ℚ) :
    validateHours a b c = .ok () ↔ HoursBounds a b c := by
  unfold validateHours
  split_ifs with h1 h2 h3 h4 h5 h6
  · exact iff_of_false (by simp) (fun hb => absurd hb.1 (not_le.mpr h1))
  · exact iff_of_false (by simp) (fun hb => absurd hb.2.1 (not_le.mpr h2))
  · exact iff_of_false (by simp) (fun hb => absurd hb.2.2.1 (not_le.mpr h3))
  · exact iff_of_false (by simp) (fun hb => absurd hb.2.2.2.1 (not_le.mpr h4))
  · exact iff_of_false (by simp) (fun hb => absurd hb.2.2.2.2.1 (not_le.mpr h5))
  · exact iff_of_false (by simp) (fun hb => absurd hb.2.2.2.2.2 (not_le.mpr h6))
  · exact iff_of_true rfl
      ⟨not_lt.mp h1, not_lt.mp h2, not_lt.mp h3, not_lt.mp h4, not_lt.mp h5, not_lt.mp h6⟩

theorem validateHours_error_of_not_bounds (a b c : ℚ) (h : ¬ HoursBounds a b c) :
    ∃ e, validateHours a b c = .error e := by
  rcases hv : validateHours a b c with e | u
  · exact ⟨e, rfl⟩
  · cases u
    exact absurd ((validateHours_eq_ok_iff a b c).mp hv) h

/-- Claim C2: `addDrivingTime(hours)` rejects negative hours; otherwise it
forms the candidate driving/duty totals and countdown `max 0 (old - hours)`,
commits all three exactly when the candidate satisfies the creation
constraints, and on a constraint violation it fails with an
`InvalidHoursOfServiceError` leaving all three stored fields unchanged. -/
theorem HoursOfService.addDrivingTime_spec (s : HoursOfService) (hours : ℚ) :
    (hours < 0 →
      s.addDrivingTime hours = .error .negativeDrivingAdd ∧
        applyExcept s (s.addDrivingTime hours) = s) ∧
    (0 ≤ hours →
      HoursBounds (s.drivingHoursToday + hours) (s.dutyHoursToday + hours)
        (max 0 (s.timeUntilBreakRequired - hours)) →
      s.addDrivingTime hours =
        .ok ⟨s.drivingHoursToday + hours, s.dutyHoursToday + hours,
          max 0 (s.timeUntilBreakRequired - hours)⟩) ∧
    (0 ≤ hours →
      ¬ HoursBounds (s.drivingHoursToday + hours) (s.dutyHoursToday + hours)
        (max 0 (s.timeUntilBreakRequired - hours)) →
      (∃ e, s.addDrivingTime hours = .error e) ∧
        applyExcept s (s.addDrivingTime hours) = s) := by
  refine ⟨fun hneg => ?_, fun hpos hb => ?_, fun hpos hb => ?_⟩
  · have hdef : s.addDrivingTime hours = .error .negativeDrivingAdd := by
      unfold HoursOfService.addDrivingTime
      rw [if_pos hneg]
    exact ⟨hdef, by rw [hdef]; rfl⟩
  · unfold HoursOfService.addDrivingTime
    rw [if_neg (not_lt.mpr hpos)]
    simp only
    rw [(validateHours_eq_ok_iff _ _ _).mpr hb]
  · obtain ⟨e, he⟩ := validateHours_error_of_not_bounds _ _ _ hb
    have hdef : s.addDrivingTime hours = .error e := by
      unfold HoursOfService.addDrivingTime
      rw [if_neg (not_lt.mpr hpos)]
      simp only
      rw [he]
    exact ⟨⟨e, hdef⟩, by rw [hdef]; rfl⟩

/-- Witness for C2 at a concrete state and input. -/
theorem HoursOfService.addDrivingTime_spec_witness :
    HoursOfService.addDrivingTime ⟨0, 0, 1/2⟩ 1 = .ok ⟨1, 1, 0⟩ := by
  have h := (HoursOfService.addDrivingTime_spec ⟨0, 0, 1/2⟩ 1).2.1
    (by norm_num) (by constructor <;> norm_num [MAX_DRIVING_HOURS_PER_DAY, MAX_DUTY_HOURS_PER_DAY])
  rw [h]
  norm_num [max_def]

/-- Claim C7: `takeBreak(hours)` fails on negative hours (leaving the state
unchanged) and otherwise resets the countdown to the required break length
`0.5` regardless of the argument, never changing `drivingHoursToday` or
`dutyHoursToday`. -/
theorem HoursOfService.takeBreak_spec (s : HoursOfService) (hours : ℚ) :
    (hours < 0 →
      s.takeBreak hours = .error .negativeBreakInput ∧
        applyExcept s (s.takeBreak hours) = s) ∧
    (0 ≤ hours →
      s.takeBreak hours =
        .ok ⟨s.drivingHoursToday, s.dutyHoursToday, REQUIRED_BREAK_TIME⟩) := by
  refine ⟨fun hneg => ?_, fun hpos => ?_⟩
  · have hdef : s.takeBreak hours = .error .negativeBreakInput := by
      unfold HoursOfService.takeBreak
      rw [if_pos hneg]
    exact ⟨hdef, by rw [hdef]; rfl⟩
  · unfold HoursOfService.takeBreak
    rw [if_neg (not_lt.mpr hpos)]

/-- Witness for C7: a five-hour break still resets the countdown to `0.5`
and keeps both totals. -/
theorem HoursOfService.takeBreak_spec_witness :
    HoursOfService.takeBreak ⟨3, 4, 0⟩ 5 = .ok ⟨3, 4, 1/2⟩ := by
  have h := (HoursOfService.takeBreak_spec ⟨3, 4, 0⟩ 5).2 (by norm_num)
  simpa [REQUIRED_BREAK_TIME] using h

theorem hosInv_createDefault : HosInv HoursOfService.createDefault := by
  refine ⟨le_refl 0, le_refl 0, ?_, le_refl 0, ?_, ?_⟩ <;>
    norm_num [HoursOfService.createDefault, REQUIRED_BREAK_TIME,
      MAX_DRIVING_HOURS_PER_DAY, MAX_DUTY_HOURS_PER_DAY]

theorem hosInv_of_create (a b c : ℚ) (s : HoursOfService)
    (h : HoursOfService.create a b c = .ok s) : HosInv s := by
  unfold HoursOfService.create at h
  rcases hv : validateHours a b c with e | u
  · rw [hv] at h; cases h
  · cases u
    rw [hv] at h
    cases h
    exact (validateHours_eq_ok_iff a b c).mp hv

theorem addDrivingTime_ok_inv (s s2 : HoursOfService) (hours : ℚ)
    (h : s.addDrivingTime hours = .ok s2) : HosInv s2 := by
  unfold HoursOfService.addDrivingTime at h
  split_ifs at h with hneg
  dsimp only at h
  split at h
  · simp at h
  · rename_i u hv
    cases u
    cases h
    exact (validateHours_eq_ok_iff _ _ _).mp hv

theorem addOnDutyTime_ok_inv (s s2 : HoursOfService) (hours : ℚ)
    (h : s.addOnDutyTime hours = .ok s2) : HosInv s2 := by
  unfold HoursOfService.addOnDutyTime at h
  split_ifs at h with hneg
  dsimp only at h
  split at h
  · simp at h
  · rename_i u hv
    cases u
    cases h
    exact (validateHours_eq_ok_iff _ _ _).mp hv

theorem takeBreak_ok_inv (s s2 : HoursOfService) (hours : ℚ) (hs : HosInv s)
    (h : s.takeBreak hours = .ok s2) : HosInv s2 := by
  unfold HoursOfService.takeBreak at h
  split_ifs at h with hneg
  cases h
  refine ⟨hs.1, hs.2.1, ?_, hs.2.2.2.1, hs.2.2.2.2.1, hs.2.2.2.2.2⟩
  norm_num [REQUIRED_BREAK_TIME]

theorem hosInv_applyHosOp (s : HoursOfService) (op : HosOp) (hs : HosInv s) :
    HosInv (applyHosOp s op) := by
  cases op with
  | addDriving hours =>
    show HosInv (applyExcept s (s.addDrivingTime hours))
    rcases hr : s.addDrivingTime hours with e | s2
    · exact hs
    · exact addDrivingTime_ok_inv s s2 hours hr
  | addOnDuty hours =>
    show HosInv (applyExcept s (s.addOnDutyTime hours))
    rcases hr : s.addOnDutyTime hours with e | s2
    · exact hs
    · exact addOnDutyTime_ok_inv s s2 hours hr
  | takeBreak hours =>
    show HosInv (applyExcept s (s.takeBreak hours))
    rcases hr : s.takeBreak hours with e | s2
    · exact hs
    · exact takeBreak_ok_inv s s2 hours hs hr
  | resetForNewDay =>
    exact hosInv_createDefault

theorem hosInv_runHosOps (s : HoursOfService) (ops : List HosOp) (hs : HosInv s) :
    HosInv (runHosOps s ops) := by
  induction ops generalizing s with
  | nil => exact hs
  | cons op rest ih => exact ih (applyHosOp s op) (hosInv_applyHosOp s op hs)

/-- Claim C10: every state reachable from a successful `create` or from
`createDefault` through any sequence of `addDrivingTime`, `addOnDutyTime`,
`takeBreak` and `resetForNewDay` calls (a call that throws leaves the state
unchanged) satisfies `0 ≤ driving ≤ duty`, `driving ≤ 11`, `duty ≤ 14` and
`0 ≤ timeUntilBreakRequired`. -/
theorem HoursOfService.reachable_inv (s0 : HoursOfService) (ops : List HosOp)
    (a b c : ℚ)
    (h0 : HoursOfService.create a b c = .ok s0 ∨ s0 = HoursOfService.createDefault) :
    HosInv (runHosOps s0 ops) := by
  refine hosInv_runHosOps s0 ops ?_
  rcases h0 with h | h
  · exact hosInv_of_create a b c s0 h
  · rw [h]; exact hosInv_createDefault

/-- Witness for C10 on a concrete trace: a default record driven through an
accepted drive, a break, a rejected oversized duty addition and a day reset
still satisfies the invariant. -/
theorem HoursOfService.reachable_inv_witness :
    HosInv (runHosOps HoursOfService.createDefault
      [HosOp.addDriving 2, HosOp.takeBreak 1, HosOp.addOnDuty 20,
        HosOp.resetForNewDay]) :=
  HoursOfService.reachable_inv HoursOfService.createDefault
    [HosOp.addDriving 2, HosOp.takeBreak 1, HosOp.addOnDuty 20,
      HosOp.resetForNewDay] 0 0 0 (Or.inr rfl)

/-! ## Driver entity (driver.entity.ts) and DriverService (application.module.ts) -/

/-- The `DriverStatus` enum (driver-status enum file, src/unnamed/part_004). -/
inductive DriverStatus where
  | available
  | driving
  | onBreak
  | loading
  | unloading
  | maintenance
  | away
  | offDuty
deriving DecidableEq, Repr

/-- A calendar date as the `getFullYear`/`getMonth`/`getDate` view of a JS
`Date` (month and day as on the calendar). -/
structure SimpleDate where
  year : Int
  month : Nat
  day : Nat
deriving DecidableEq, Repr

/-- The `Driver` entity, restricted to the fields the verified claims read:
identity, unique email, date of birth, the three credential expiries
(timestamps in ms), operational status, in-progress load id and the
`updatedAt` timestamp.  The remaining fields of driver.entity.ts (names,
phones, address, employment data, sub-collections) are carried unchanged by
every operation below and are omitted.  Methods that call `new Date()`
receive the current time as an explicit `now` argument. -/
structure Driver where
  id : String
  email : String
  dob : SimpleDate
  licenseExpiry : Int
  medCertExpiry : Int
  twicExpiry : Option Int
  status : DriverStatus
  loadId : Option String
  updatedAt : Int
deriving DecidableEq, Repr

/-- JS truthiness of the optional `loadId` string: `undefined` and the empty
string are both falsy (`if (!driver.loadId)` in `DriverService.completeLoad`). -/
def jsTruthyLoadId (l : Option String) : Bool :=
  match l with
  | some s => decide (s ≠ "")
  | none => false

/-- Embedding of `Driver.isAvailable` (driver.entity.ts lines 424-426). -/
def Driver.isAvailable (d : Driver) : Bool :=
  decide (d.status = DriverStatus.available)

/-- Embedding of the entity method `Driver.assignLoad` (lines 443-447):
unconditionally stores the load id, sets status `driving`, bumps `updatedAt`. -/
def Driver.assignLoad (d : Driver) (loadId : String) (now : Int) : Driver :=
  { d with loadId := some loadId, status := DriverStatus.driving, updatedAt := now }

/-- Embedding of the entity method `Driver.completeLoad` (lines 452-456):
clears the load id, sets status `available`, bumps `updatedAt`. -/
def Driver.completeLoad (d : Driver) (now : Int) : Driver :=
  { d with loadId := none, status := DriverStatus.available, updatedAt := now }

/-- Result record of `Driver.checkCredentialStatus`. -/
structure CredStatus where
  licenseExpired : Bool
  licenseExpiringSoon : Bool
  medCertExpired : Bool
  medCertExpiringSoon : Bool
  twicExpired : Bool
  twicExpiringSoon : Bool
deriving DecidableEq, Repr

/-- Milliseconds in a day; `thresholdDate.setDate(getDate() + daysThreshold)`
advances a JS date by `daysThreshold` days, i.e. this many ms. -/
def msPerDay : Int := 86400000

/-- Embedding of `Driver.checkCredentialStatus` (lines 640-661).  The method
only reads fields; it is embedded as returning the result record together
with the (unchanged) post-state of the driver. -/
def Driver.checkCredentialStatus (d : Driver) (now : Int) (daysThreshold : Int) :
    CredStatus × Driver :=
  let thresholdDate := now + daysThreshold * msPerDay
  (⟨decide (d.licenseExpiry < now),
    decide (now ≤ d.licenseExpiry) && decide (d.licenseExpiry ≤ thresholdDate),
    decide (d.medCertExpiry < now),
    decide (now ≤ d.medCertExpiry) && decide (d.medCertExpiry ≤ thresholdDate),
    match d.twicExpiry with
    | some t => decide (t < now)
    | none => false,
    match d.twicExpiry with
    | some t => decide (now ≤ t) && decide (t ≤ thresholdDate)
    | none => false⟩, d)

/-- Embedding of the date-of-birth check inside `Driver.validateDriverData`
(lines 299-309): the code compares only `getFullYear()` of `dob` against
`now.getFullYear() - 80` and `now.getFullYear() - 21`. -/
def dobAccept (nowDate : SimpleDate) (dob : SimpleDate) : Bool :=
  decide (nowDate.year - 80 ≤ dob.year) && decide (dob.year ≤ nowDate.year - 21)

/-- Modelled from the spec: "date of birth implies age between 21 and 80
years at time of validation" — the driver's age in whole calendar years at
`nowDate` (one less than the year difference if the birthday has not yet
occurred this year). -/
def ageInYears (nowDate : SimpleDate) (dob : SimpleDate) : Int :=
  nowDate.year - dob.year -
    (if nowDate.month < dob.month ∨ (nowDate.month = dob.month ∧ nowDate.day < dob.day)
      then 1 else 0)

/-- The input fields of `Driver.create` that the verified claims read. -/
structure DriverCreateData where
  email : String
  dob : SimpleDate
  licenseExpiry : Int
  medCertExpiry : Int
  twicExpiry : Option Int
deriving DecidableEq, Repr

/-- Error cases of `InvalidDriverDataError` raised by the embedded checks. -/
inductive DriverDataError where
  | invalidDob
  | licenseAlreadyExpired
  | medCertAlreadyExpired
deriving DecidableEq, Repr

/-- Embedding of `Driver.validateDriverData` (lines 260-328) restricted to
the modelled fields, in source order: the date-of-birth year-range check,
then `licenseExpiry < now` and `medCertExpiry < now`.  The required-field,
email-format, phone-format and enum checks concern fields no claim reads and
are omitted. -/
def Driver.validateDriverData (nowDate : SimpleDate) (nowMs : Int)
    (data : DriverCreateData) : Except DriverDataError Unit :=
  if dobAccept nowDate data.dob = false then .error .invalidDob
  else if data.licenseExpiry < nowMs then .error .licenseAlreadyExpired
  else if data.medCertExpiry < nowMs then .error .medCertAlreadyExpired
  else .ok ()

/-- Embedding of the factory `Driver.create` (driver.entity.ts lines
337-390): validates the data, then builds the entity.  The one-object TS
parameter is split into the validated fields (`data`) and the `status` and
`loadId` pass-throughs: `status` defaults to `available` when absent
(`data.status || DriverStatus.AVAILABLE`; every status enum string is
truthy) and `loadId` is stored as given.  The entity id is supplied by the
caller: the row id on repository reads, the database-generated id on
creation. -/
def Driver.create (id : String) (nowDate : SimpleDate) (nowMs : Int)
    (data : DriverCreateData) (status : Option DriverStatus)
    (loadId : Option String) : Except DriverDataError Driver :=
  match Driver.validateDriverData nowDate nowMs data with
  | .error e => .error e
  | .ok _ =>
    .ok ⟨id, data.email, data.dob, data.licenseExpiry, data.medCertExpiry,
      data.twicExpiry, status.getD DriverStatus.available, loadId, nowMs⟩

/-! ## PrismaDriverRepository (src/drivers-service/src/infrastructure/index.ts
lines 37-435) -/

/-- A persisted driver row, restricted to the modelled columns of the Prisma
`Driver` model (src/unnamed/part_000): unique `id` and unique `email`,
`dob`, the credential expiries, `status` and the nullable `loadId`. -/
structure DriverRow where
  id : String
  email : String
  dob : SimpleDate
  licenseExpiry : Int
  medCertExpiry : Int
  twicExpiry : Option Int
  status : DriverStatus
  loadId : Option String
deriving DecidableEq, Repr

/-- The `prismaDriver.loadId || undefined` coercion in `mapToDomainModel`
(infrastructure/index.ts line 127): a null or empty-string column reads back
as undefined. -/
def orUndefined (l : Option String) : Option String :=
  match l with
  | some s => if s = "" then none else some s
  | none => none

/-- The validated creation fields `mapToDomainModel` reads off a row. -/
def DriverRow.createData (row : DriverRow) : DriverCreateData :=
  ⟨row.email, row.dob, row.licenseExpiry, row.medCertExpiry, row.twicExpiry⟩

/-- Embedding of `PrismaDriverRepository.mapToDomainModel` (lines 50-135):
rebuilds the domain entity from the row through `Driver.create`, so every
repository read re-runs `validateDriverData` and can throw
`InvalidDriverDataError`; `twicExpiry` passes through (a present `Date` is
truthy), `status` is cast, and `loadId` gets the `|| undefined` coercion. -/
def mapToDomainModel (nowDate : SimpleDate) (nowMs : Int) (row : DriverRow) :
    Except DriverDataError Driver :=
  Driver.create row.id nowDate nowMs row.createData (some row.status)
    (orUndefined row.loadId)

/-- The driver `mapToDomainModel` returns when validation passes. -/
def readBack (row : DriverRow) (nowMs : Int) : Driver :=
  ⟨row.id, row.email, row.dob, row.licenseExpiry, row.medCertExpiry,
    row.twicExpiry, row.status, orUndefined row.loadId, nowMs⟩

/-- Embedding of `mapToPrismaModel` (lines 143-183): the entity's scalar
fields become the row's columns (undefined stored as null, i.e. `none`).
The auto-managed id is excluded from the payload, but `update` targets
`where id = driver.id`, so the resulting row carries the entity's id. -/
def mapToPrismaModel (d : Driver) : DriverRow :=
  ⟨d.id, d.email, d.dob, d.licenseExpiry, d.medCertExpiry, d.twicExpiry,
    d.status, d.loadId⟩

/-- Prisma `findUnique` on the `@id` column, over the row store. -/
def dbFindRowById (db : List DriverRow) (id : String) : Option DriverRow :=
  db.find? (fun r => decide (r.id = id))

/-- Prisma `findUnique` on the `@unique` email column. -/
def dbFindRowByEmail (db : List DriverRow) (email : String) : Option DriverRow :=
  db.find? (fun r => decide (r.email = email))

/-- Prisma `driver.update`'s effect on the row store: replace the row whose
id matches. -/
def dbUpdateRow (db : List DriverRow) (row : DriverRow) : List DriverRow :=
  db.map (fun r => if r.id = row.id then row else r)

/-- Error conditions raised by the embedded repository and service
operations (errors propagate uncaught, so one type covers both layers):
the service's own conditions, `InvalidDriverDataError` from `Driver.create`
(also re-raised by `mapToDomainModel` on reads), `rowNotFound` for a Prisma
update on a missing id, and `uniqueViolation` for a unique-constraint
violation at insert. -/
inductive ServiceError where
  | driverNotFound
  | driverNotAvailable
  | noLoadAssigned
  | duplicateEmail
  | invalidDriverData (e : DriverDataError)
  | rowNotFound
  | uniqueViolation
deriving DecidableEq, Repr

/-- Embedding of `PrismaDriverRepository.findById` (lines 212-232): fetch
the unique row, null when absent, else map it through the re-validating
`mapToDomainModel`. -/
def repoFindById (db : List DriverRow) (id : String) (nowDate : SimpleDate)
    (nowMs : Int) : Except ServiceError (Option Driver) :=
  match dbFindRowById db id with
  | none => .ok none
  | some row =>
    match mapToDomainModel nowDate nowMs row with
    | .error e => .error (.invalidDriverData e)
    | .ok d => .ok (some d)

/-- Embedding of `PrismaDriverRepository.findByEmail` (lines 240-260). -/
def repoFindByEmail (db : List DriverRow) (email : String)
    (nowDate : SimpleDate) (nowMs : Int) : Except ServiceError (Option Driver) :=
  match dbFindRowByEmail db email with
  | none => .ok none
  | some row =>
    match mapToDomainModel nowDate nowMs row with
    | .error e => .error (.invalidDriverData e)
    | .ok d => .ok (some d)

/-- Embedding of `PrismaDriverRepository.update` (lines 331-411): write the
entity's columns to its row (Prisma throws when the id has no row), re-fetch
the row and map it back through the re-validating `mapToDomainModel`; the
transaction has committed by then, so a mapping failure leaves the write in
place. -/
def repoUpdate (db : List DriverRow) (d : Driver) (nowDate : SimpleDate)
    (nowMs : Int) : List DriverRow × Except ServiceError Driver :=
  match dbFindRowById db d.id with
  | none => (db, .error .rowNotFound)
  | some _ =>
    match dbFindRowById (dbUpdateRow db (mapToPrismaModel d)) d.id with
    | none => (dbUpdateRow db (mapToPrismaModel d), .error .rowNotFound)
    | some row2 =>
      match mapToDomainModel nowDate nowMs row2 with
      | .error e =>
        (dbUpdateRow db (mapToPrismaModel d), .error (.invalidDriverData e))
      | .ok d2 => (dbUpdateRow db (mapToPrismaModel d), .ok d2)

/-- Embedding of `PrismaDriverRepository.create` (lines 268-323): insert a
row under the database-generated id `newId` (a unique-constraint violation
on id or email aborts the transaction), then map the persisted row back
through the re-validating `mapToDomainModel` (outside the transaction, so
the row stays either way). -/
def repoCreate (db : List DriverRow) (newId : String) (d : Driver)
    (nowDate : SimpleDate) (nowMs : Int) :
    List DriverRow × Except ServiceError Driver :=
  if (dbFindRowById db newId).isSome ∨ (dbFindRowByEmail db d.email).isSome then
    (db, .error .uniqueViolation)
  else
    match mapToDomainModel nowDate nowMs { mapToPrismaModel d with id := newId } with
    | .error e =>
      (db ++ [{ mapToPrismaModel d with id := newId }], .error (.invalidDriverData e))
    | .ok d2 => (db ++ [{ mapToPrismaModel d with id := newId }], .ok d2)

/-- Embedding of `DriverService.assignLoad` (application.module.ts lines
340-357) over the repository: the repository read itself can fail
(propagated), a missing driver is "not found", a non-available one "not
available", else the mutated entity is persisted via the repository update.
The `new Date()` instants of one request are the single `nowMs`. -/
def DriverService.assignLoad (db : List DriverRow) (driverId loadId : String)
    (nowDate : SimpleDate) (nowMs : Int) :
    List DriverRow × Except ServiceError Driver :=
  match repoFindById db driverId nowDate nowMs with
  | .error e => (db, .error e)
  | .ok none => (db, .error .driverNotFound)
  | .ok (some d) =>
    if d.isAvailable then repoUpdate db (d.assignLoad loadId nowMs) nowDate nowMs
    else (db, .error .driverNotAvailable)

/-- Embedding of `DriverService.completeLoad` (lines 365-382): load the
driver (re-validated by the repository), fail unless `driver.loadId` is
truthy, else mutate and persist. -/
def DriverService.completeLoad (db : List DriverRow) (driverId : String)
    (nowDate : SimpleDate) (nowMs : Int) :
    List DriverRow × Except ServiceError Driver :=
  match repoFindById db driverId nowDate nowMs with
  | .error e => (db, .error e)
  | .ok none => (db, .error .driverNotFound)
  | .ok (some d) =>
    if jsTruthyLoadId d.loadId then
      repoUpdate db (d.completeLoad nowMs) nowDate nowMs
    else (db, .error .noLoadAssigned)

/-- Embedding of `DriverService.createDriver` (lines 92-189) restricted to
the modelled fields: the duplicate-email check (through the re-validating
`findByEmail`) runs first; only then is the entity created with status
`available` and persisted. -/
def DriverService.createDriver (db : List DriverRow) (newId : String)
    (nowDate : SimpleDate) (nowMs : Int) (data : DriverCreateData) :
    List DriverRow × Except ServiceError Driver :=
  match repoFindByEmail db data.email nowDate nowMs with
  | .error e => (db, .error e)
  | .ok (some _) => (db, .error .duplicateEmail)
  | .ok none =>
    match Driver.create newId nowDate nowMs data (some DriverStatus.available) none with
    | .error e => (db, .error (.invalidDriverData e))
    | .ok d => repoCreate db newId d nowDate nowMs

theorem findRow_dbUpdateRow (db : List DriverRow) (i : String)
    (row newRow : DriverRow) (hf : dbFindRowById db i = some row)
    (hid : newRow.id = i) :
    dbFindRowById (dbUpdateRow db newRow) i = some newRow := by
  induction db with
  | nil => simp [dbFindRowById] at hf
  | cons a l ih =>
    by_cases ha : a.id = i
    · unfold dbFindRowById dbUpdateRow
      simp only [List.map_cons]
      rw [if_pos (by rw [ha, hid])]
      rw [List.find?_cons_of_pos _ (by simp [hid])]
    · have hne : ¬ a.id = newRow.id := by rw [hid]; exact ha
      have hf2 : dbFindRowById l i = some row := by
        unfold dbFindRowById at hf
        rwa [List.find?_cons_of_neg _ (by simpa using ha)] at hf
      unfold dbFindRowById dbUpdateRow
      simp only [List.map_cons]
      rw [if_neg hne]
      rw [List.find?_cons_of_neg _ (by simpa using ha)]
      exact ih hf2

theorem mapToDomainModel_ok_iff (nowDate : SimpleDate) (nowMs : Int)
    (row : DriverRow) (d : Driver) :
    mapToDomainModel nowDate nowMs row = .ok d ↔
      (Driver.validateDriverData nowDate nowMs row.createData = .ok () ∧
        d = readBack row nowMs) := by
  unfold mapToDomainModel Driver.create
  constructor
  · intro h
    split at h
    · simp at h
    · rename_i u hv
      cases u
      cases h
      exact ⟨hv, rfl⟩
  · rintro ⟨hv, hd⟩
    subst hd
    rw [hv]
    rfl

theorem repoFindById_ok (db : List DriverRow) (i : String) (row : DriverRow)
    (d : Driver) (nowDate : SimpleDate) (nowMs : Int)
    (hfind : dbFindRowById db i = some row)
    (hmap : mapToDomainModel nowDate nowMs row = .ok d) :
    repoFindById db i nowDate nowMs = .ok (some d) := by
  unfold repoFindById
  rw [hfind]
  simp only
  rw [hmap]

theorem repoFindById_err (db : List DriverRow) (i : String) (row : DriverRow)
    (e : DriverDataError) (nowDate : SimpleDate) (nowMs : Int)
    (hfind : dbFindRowById db i = some row)
    (hmap : mapToDomainModel nowDate nowMs row = .error e) :
    repoFindById db i nowDate nowMs = .error (.invalidDriverData e) := by
  unfold repoFindById
  rw [hfind]
  simp only
  rw [hmap]

theorem repoFindByEmail_ok (db : List DriverRow) (em : String)
    (row : DriverRow) (d : Driver) (nowDate : SimpleDate) (nowMs : Int)
    (hfind : dbFindRowByEmail db em = some row)
    (hmap : mapToDomainModel nowDate nowMs row = .ok d) :
    repoFindByEmail db em nowDate nowMs = .ok (some d) := by
  unfold repoFindByEmail
  rw [hfind]
  simp only
  rw [hmap]

theorem repoFindByEmail_err (db : List DriverRow) (em : String)
    (row : DriverRow) (e : DriverDataError) (nowDate : SimpleDate) (nowMs : Int)
    (hfind : dbFindRowByEmail db em = some row)
    (hmap : mapToDomainModel nowDate nowMs row = .error e) :
    repoFindByEmail db em nowDate nowMs = .error (.invalidDriverData e) := by
  unfold repoFindByEmail
  rw [hfind]
  simp only
  rw [hmap]

theorem repoUpdate_ok (db : List DriverRow) (row : DriverRow) (d2 : Driver)
    (nowDate : SimpleDate) (nowMs : Int) (hid : d2.id = row.id)
    (hfind : dbFindRowById db row.id = some row)
    (hval : Driver.validateDriverData nowDate nowMs
      (mapToPrismaModel d2).createData = .ok ()) :
    repoUpdate db d2 nowDate nowMs =
      (dbUpdateRow db (mapToPrismaModel d2),
        .ok (readBack (mapToPrismaModel d2) nowMs)) := by
  have h1 : dbFindRowById db d2.id = some row := by rw [hid]; exact hfind
  have h2 : dbFindRowById (dbUpdateRow db (mapToPrismaModel d2)) d2.id =
      some (mapToPrismaModel d2) :=
    findRow_dbUpdateRow db d2.id row (mapToPrismaModel d2) h1 rfl
  have h3 : mapToDomainModel nowDate nowMs (mapToPrismaModel d2) =
      .ok (readBack (mapToPrismaModel d2) nowMs) :=
    (mapToDomainModel_ok_iff nowDate nowMs (mapToPrismaModel d2) _).mpr ⟨hval, rfl⟩
  unfold repoUpdate
  rw [h1]
  simp only
  rw [h2]
  simp only
  rw [h3]

theorem readBack_mapToPrisma (d : Driver) (nowMs : Int)
    (h1 : orUndefined d.loadId = d.loadId) (h2 : d.updatedAt = nowMs) :
    readBack (mapToPrismaModel d) nowMs = d := by
  cases d with
  | mk id email dob l m t st lo up =>
    unfold readBack mapToPrismaModel
    dsimp only at h1 h2 ⊢
    rw [h1, h2]

/-- A stored row holding an available driver with valid credentials at the
times used in the witnesses. -/
def exRowFree : DriverRow :=
  ⟨"d1", "a@example.com", ⟨1980, 6, 15⟩, 1000, 1000, none,
    DriverStatus.available, none⟩

/-- A stored row holding a valid driver who is currently driving a load. -/
def exRowBusy : DriverRow :=
  ⟨"d2", "b@example.com", ⟨1980, 6, 15⟩, 1000, 1000, some 500,
    DriverStatus.driving, some "L9"⟩

/-- A stored row whose driver data no longer validates: the status is
`available` but the license expiry (100) is before the witness time (500). -/
def exRowExpired : DriverRow :=
  ⟨"d3", "c@example.com", ⟨1980, 6, 15⟩, 100, 1000, none,
    DriverStatus.available, none⟩

/-- A concrete available driver entity with no load (used by the
credential-status witness). -/
def exDriverFree : Driver :=
  ⟨"d1", "a@example.com", ⟨1980, 6, 15⟩, 1000, 1000, none,
    DriverStatus.available, none, 0⟩

/-- Claim C1 counterexample: every repository read re-validates the stored
record, so for a stored driver whose status IS `available` but whose license
expiry has passed, `assignLoad` fails with `InvalidDriverDataError` — it
neither succeeds nor reports the "not available" condition. -/
theorem assignLoad_expired_license_fails :
    exRowExpired.status = DriverStatus.available ∧
    DriverService.assignLoad [exRowExpired] "d3" "L1" ⟨2026, 10, 12⟩ 500 =
      ([exRowExpired], .error (.invalidDriverData .licenseAlreadyExpired)) ∧
    ServiceError.invalidDriverData DriverDataError.licenseAlreadyExpired ≠
      ServiceError.driverNotAvailable := by
  refine ⟨by decide, by decide, by decide⟩

/-- Claim C1 (amended): every repository read re-validates the stored
record.  Provided that re-validation succeeds: when the driver's status is
not `available`, `assignLoad` fails with the "not available" condition and
the store (hence the driver's status and loadId) is unchanged; when the
status is `available`, it succeeds, persisting status `driving` and the
given loadId on the driver's row.  When the stored record fails
re-validation, `assignLoad` instead fails with that validation error, also
leaving the store unchanged. -/
theorem DriverService.assignLoad_spec (db : List DriverRow) (row : DriverRow)
    (loadId : String) (nowDate : SimpleDate) (nowMs : Int) (d : Driver)
    (hfind : dbFindRowById db row.id = some row)
    (hmap : mapToDomainModel nowDate nowMs row = .ok d) :
    (d.status ≠ DriverStatus.available →
      DriverService.assignLoad db row.id loadId nowDate nowMs =
        (db, .error .driverNotAvailable)) ∧
    (d.status = DriverStatus.available →
      DriverService.assignLoad db row.id loadId nowDate nowMs =
        (dbUpdateRow db (mapToPrismaModel (d.assignLoad loadId nowMs)),
          .ok (readBack (mapToPrismaModel (d.assignLoad loadId nowMs)) nowMs)) ∧
      (mapToPrismaModel (d.assignLoad loadId nowMs)).status = DriverStatus.driving ∧
      (mapToPrismaModel (d.assignLoad loadId nowMs)).loadId = some loadId) ∧
    (∀ db2 row2 e2, dbFindRowById db2 row2.id = some row2 →
      mapToDomainModel nowDate nowMs row2 = .error e2 →
      DriverService.assignLoad db2 row2.id loadId nowDate nowMs =
        (db2, .error (.invalidDriverData e2))) := by
  obtain ⟨hv, hd⟩ := (mapToDomainModel_ok_iff nowDate nowMs row d).mp hmap
  subst hd
  refine ⟨?_, ?_, ?_⟩
  · intro hne2
    unfold DriverService.assignLoad
    rw [repoFindById_ok db row.id row (readBack row nowMs) nowDate nowMs hfind hmap]
    simp only
    rw [if_neg (by simp [Driver.isAvailable, hne2])]
  · intro hav
    refine ⟨?_, rfl, rfl⟩
    unfold DriverService.assignLoad
    rw [repoFindById_ok db row.id row (readBack row nowMs) nowDate nowMs hfind hmap]
    simp only
    rw [if_pos (by simp [Driver.isAvailable, hav])]
    exact repoUpdate_ok db row ((readBack row nowMs).assignLoad loadId nowMs)
      nowDate nowMs rfl hfind hv
  · intro db2 row2 e2 hf2 hm2
    unfold DriverService.assignLoad
    rw [repoFindById_err db2 row2.id row2 e2 nowDate nowMs hf2 hm2]

/-- Witness for the amended C1: assigning to a stored (valid) driver who is
currently driving fails with the "not available" condition, store unchanged. -/
theorem DriverService.assignLoad_spec_witness :
    DriverService.assignLoad [exRowBusy] "d2" "L1" ⟨2026, 10, 12⟩ 500 =
      ([exRowBusy], .error .driverNotAvailable) :=
  (DriverService.assignLoad_spec [exRowBusy] exRowBusy "L1" ⟨2026, 10, 12⟩ 500
    (readBack exRowBusy 500) (by decide) (by decide)).1 (by decide)

/-- Claim C3: `checkCredentialStatus(daysThreshold)` reports, for each
credential, `expired` exactly when `now > expiry` and `expiringSoon` exactly
when `now ≤ expiry ≤ now + daysThreshold` days; both TWIC booleans are false
when no TWIC expiry is set; and the driver record is unchanged. -/
theorem Driver.checkCredentialStatus_spec (d : Driver) (now daysThreshold : Int) :
    ((d.checkCredentialStatus now daysThreshold).1.licenseExpired = true ↔
      d.licenseExpiry < now) ∧
    ((d.checkCredentialStatus now daysThreshold).1.licenseExpiringSoon = true ↔
      now ≤ d.licenseExpiry ∧ d.licenseExpiry ≤ now + daysThreshold * msPerDay) ∧
    ((d.checkCredentialStatus now daysThreshold).1.medCertExpired = true ↔
      d.medCertExpiry < now) ∧
    ((d.checkCredentialStatus now daysThreshold).1.medCertExpiringSoon = true ↔
      now ≤ d.medCertExpiry ∧ d.medCertExpiry ≤ now + daysThreshold * msPerDay) ∧
    (d.twicExpiry = none →
      (d.checkCredentialStatus now daysThreshold).1.twicExpired = false ∧
      (d.checkCredentialStatus now daysThreshold).1.twicExpiringSoon = false) ∧
    (∀ t, d.twicExpiry = some t →
      ((d.checkCredentialStatus now daysThreshold).1.twicExpired = true ↔ t < now) ∧
      ((d.checkCredentialStatus now daysThreshold).1.twicExpiringSoon = true ↔
        now ≤ t ∧ t ≤ now + daysThreshold * msPerDay)) ∧
    (d.checkCredentialStatus now daysThreshold).2 = d := by
  unfold Driver.checkCredentialStatus
  refine ⟨by simp, by simp, by simp, by simp, ?_, ?_, rfl⟩
  · intro hnone
    rw [hnone]
    exact ⟨rfl, rfl⟩
  · intro t ht
    rw [ht]
    exact ⟨by simp, by simp⟩

/-- Witness for C3, mirroring the spec's example: with a license expiring 10
days from now and a threshold of 30 days, the license is not expired but is
expiring soon; the TWIC booleans of a driver without TWIC are false. -/
theorem Driver.checkCredentialStatus_spec_witness :
    ((exDriverFree.checkCredentialStatus 500 30).1.licenseExpired ↔
      exDriverFree.licenseExpiry < 500) ∧
    ((exDriverFree.checkCredentialStatus 500 30).1.twicExpired = false ∧
      (exDriverFree.checkCredentialStatus 500 30).1.twicExpiringSoon = false) :=
  ⟨(Driver.checkCredentialStatus_spec exDriverFree 500 30).1,
    ((Driver.checkCredentialStatus_spec exDriverFree 500 30).2.2.2.2.1 rfl)⟩

/-- Claim C4 counterexample: the code accepts a date of birth by birth year
alone.  On 2026-10-12 a driver born 2005-12-31 is accepted (birth year
2005 = 2026 - 21) although their age is 20, outside 21..80. -/
theorem dobAccept_not_exact_age :
    dobAccept ⟨2026, 10, 12⟩ ⟨2005, 12, 31⟩ = true ∧
    ageInYears ⟨2026, 10, 12⟩ ⟨2005, 12, 31⟩ = 20 ∧
    ¬(21 ≤ ageInYears ⟨2026, 10, 12⟩ ⟨2005, 12, 31⟩ ∧
        ageInYears ⟨2026, 10, 12⟩ ⟨2005, 12, 31⟩ ≤ 80) := by
  refine ⟨by decide, by decide, ?_⟩
  intro h
  exact absurd h.1 (by decide)

/-- Claim C4 (amended): creation/update accept a date of birth exactly when
the birth year lies between `now.year - 80` and `now.year - 21` inclusive,
i.e. when the year difference `now.year - dob.year` is between 21 and 80 —
age measured in calendar years ignoring month and day; `validateDriverData`
rejects exactly the dates of birth failing this year-range check. -/
theorem dobAccept_year_range (nowDate dob : SimpleDate) (nowMs : Int)
    (data : DriverCreateData) :
    (dobAccept nowDate dob = true ↔
      21 ≤ nowDate.year - dob.year ∧ nowDate.year - dob.year ≤ 80) ∧
    (dobAccept nowDate data.dob = false →
      Driver.validateDriverData nowDate nowMs data = .error .invalidDob) ∧
    (Driver.validateDriverData nowDate nowMs data = .ok () →
      dobAccept nowDate data.dob = true) := by
  refine ⟨?_, ?_, ?_⟩
  · unfold dobAccept
    simp only [Bool.and_eq_true, decide_eq_true_eq]
    omega
  · intro hfail
    unfold Driver.validateDriverData
    rw [if_pos hfail]
  · intro hok
    by_contra hno
    have hfail : dobAccept nowDate data.dob = false := by
      cases hacc : dobAccept nowDate data.dob
      · rfl
      · exact absurd hacc hno
    unfold Driver.validateDriverData at hok
    rw [if_pos hfail] at hok
    cases hok

/-- Witness for the amended C4 at a concrete date. -/
theorem dobAccept_year_range_witness :
    dobAccept ⟨2026, 10, 12⟩ ⟨1990, 1, 1⟩ = true :=
  ((dobAccept_year_range ⟨2026, 10, 12⟩ ⟨1990, 1, 1⟩ 0
    ⟨"x@example.com", ⟨1990, 1, 1⟩, 0, 0, none⟩).1).mpr (by decide)

/-- Claim C6 counterexample: from an available stored driver, `assignLoad("")`
succeeds — the persisted row gets status `driving` and loadId `""` — but the
immediate `completeLoad` fails with "no load assigned": the empty loadId is
falsy both in the read-back coercion and in the service guard, so the record
does not return to `available` with no loadId. -/
theorem assignLoad_empty_then_completeLoad_fails :
    (DriverService.assignLoad [exRowFree] "d1" "" ⟨2026, 10, 12⟩ 500).2 =
      .ok (readBack ⟨"d1", "a@example.com", ⟨1980, 6, 15⟩, 1000, 1000, none,
        DriverStatus.driving, some ""⟩ 500) ∧
    DriverService.completeLoad
        (DriverService.assignLoad [exRowFree] "d1" "" ⟨2026, 10, 12⟩ 500).1 "d1"
        ⟨2026, 10, 12⟩ 501 =
      ((DriverService.assignLoad [exRowFree] "d1" "" ⟨2026, 10, 12⟩ 500).1,
        .error .noLoadAssigned) ∧
    (dbFindRowById
        (DriverService.assignLoad [exRowFree] "d1" "" ⟨2026, 10, 12⟩ 500).1
        "d1").map DriverRow.status = some DriverStatus.driving := by
  refine ⟨by decide, by decide, by decide⟩

/-- Claim C6 (amended): for a stored driver that passes the read-side
re-validation, whose status is `available`, and for any NON-EMPTY loadId,
`assignLoad(loadId)` followed immediately by `completeLoad()` succeeds and
returns the record to status `available` with no loadId; and `completeLoad`
fails with the "no load assigned" condition (store unchanged) whenever the
retrieved driver's loadId is absent or empty. -/
theorem assign_then_complete_roundtrip (db : List DriverRow) (row : DriverRow)
    (loadId : String) (nowDate : SimpleDate) (nowMs : Int) (d : Driver)
    (db2 : List DriverRow) (row2 : DriverRow) (d2 : Driver)
    (hfind : dbFindRowById db row.id = some row)
    (hmap : mapToDomainModel nowDate nowMs row = .ok d)
    (hav : d.status = DriverStatus.available) (hne : loadId ≠ "")
    (hfind2 : dbFindRowById db2 row2.id = some row2)
    (hmap2 : mapToDomainModel nowDate nowMs row2 = .ok d2)
    (hno : jsTruthyLoadId d2.loadId = false) :
    DriverService.assignLoad db row.id loadId nowDate nowMs =
      (dbUpdateRow db (mapToPrismaModel (d.assignLoad loadId nowMs)),
        .ok (d.assignLoad loadId nowMs)) ∧
    DriverService.completeLoad
        (dbUpdateRow db (mapToPrismaModel (d.assignLoad loadId nowMs)))
        row.id nowDate nowMs =
      (dbUpdateRow (dbUpdateRow db (mapToPrismaModel (d.assignLoad loadId nowMs)))
          (mapToPrismaModel ((d.assignLoad loadId nowMs).completeLoad nowMs)),
        .ok ((d.assignLoad loadId nowMs).completeLoad nowMs)) ∧
    ((d.assignLoad loadId nowMs).completeLoad nowMs).status = DriverStatus.available ∧
    ((d.assignLoad loadId nowMs).completeLoad nowMs).loadId = none ∧
    DriverService.completeLoad db2 row2.id nowDate nowMs =
      (db2, .error .noLoadAssigned) := by
  obtain ⟨hv, hd⟩ := (mapToDomainModel_ok_iff nowDate nowMs row d).mp hmap
  subst hd
  have hc1 : readBack (mapToPrismaModel
      ((readBack row nowMs).assignLoad loadId nowMs)) nowMs =
      (readBack row nowMs).assignLoad loadId nowMs := by
    refine readBack_mapToPrisma _ _ ?_ rfl
    show orUndefined (some loadId) = some loadId
    simp only [orUndefined]
    rw [if_neg hne]
  have hfind1 : dbFindRowById
      (dbUpdateRow db (mapToPrismaModel ((readBack row nowMs).assignLoad loadId nowMs)))
      row.id =
      some (mapToPrismaModel ((readBack row nowMs).assignLoad loadId nowMs)) :=
    findRow_dbUpdateRow db row.id row _ hfind rfl
  have hmap1 : mapToDomainModel nowDate nowMs
      (mapToPrismaModel ((readBack row nowMs).assignLoad loadId nowMs)) =
      .ok ((readBack row nowMs).assignLoad loadId nowMs) :=
    (mapToDomainModel_ok_iff nowDate nowMs _ _).mpr ⟨hv, hc1.symm⟩
  have hc2 : readBack (mapToPrismaModel
      (((readBack row nowMs).assignLoad loadId nowMs).completeLoad nowMs)) nowMs =
      ((readBack row nowMs).assignLoad loadId nowMs).completeLoad nowMs :=
    readBack_mapToPrisma _ _ rfl rfl
  refine ⟨?_, ?_, rfl, rfl, ?_⟩
  · unfold DriverService.assignLoad
    rw [repoFindById_ok db row.id row (readBack row nowMs) nowDate nowMs hfind hmap]
    simp only
    rw [if_pos (by simp [Driver.isAvailable, hav])]
    rw [repoUpdate_ok db row ((readBack row nowMs).assignLoad loadId nowMs)
      nowDate nowMs rfl hfind hv]
    rw [hc1]
  · unfold DriverService.completeLoad
    rw [repoFindById_ok
      (dbUpdateRow db (mapToPrismaModel ((readBack row nowMs).assignLoad loadId nowMs)))
      row.id (mapToPrismaModel ((readBack row nowMs).assignLoad loadId nowMs))
      ((readBack row nowMs).assignLoad loadId nowMs) nowDate nowMs hfind1 hmap1]
    simp only
    rw [if_pos (by
      show jsTruthyLoadId (some loadId) = true
      simp [jsTruthyLoadId, hne])]
    rw [repoUpdate_ok
      (dbUpdateRow db (mapToPrismaModel ((readBack row nowMs).assignLoad loadId nowMs)))
      (mapToPrismaModel ((readBack row nowMs).assignLoad loadId nowMs))
      (((readBack row nowMs).assignLoad loadId nowMs).completeLoad nowMs)
      nowDate nowMs rfl hfind1 hv]
    rw [hc2]
  · unfold DriverService.completeLoad
    rw [repoFindById_ok db2 row2.id row2 d2 nowDate nowMs hfind2 hmap2]
    simp only
    rw [if_neg (by simp [hno])]

/-- Witness for the amended C6 on a concrete available stored driver. -/
theorem assign_then_complete_roundtrip_witness :
    (((readBack exRowFree 500).assignLoad "L1" 500).completeLoad 500).status =
      DriverStatus.available ∧
    (((readBack exRowFree 500).assignLoad "L1" 500).completeLoad 500).loadId =
      none ∧
    DriverService.completeLoad [exRowFree] "d1" ⟨2026, 10, 12⟩ 500 =
      ([exRowFree], .error .noLoadAssigned) := by
  have h := assign_then_complete_roundtrip [exRowFree] exRowFree "L1"
    ⟨2026, 10, 12⟩ 500 (readBack exRowFree 500) [exRowFree] exRowFree
    (readBack exRowFree 500) (by decide) (by decide) (by decide) (by decide)
    (by decide) (by decide) (by decide)
  exact ⟨h.2.2.1, h.2.2.2.1, h.2.2.2.2⟩

/-- Claim C8 counterexample: the stored record carrying the duplicate email
fails re-validation on the `findByEmail` read (expired license), so creation
fails with that `InvalidDriverDataError` instead of the duplicate/conflict
condition (while still persisting nothing). -/
theorem createDriver_stored_invalid_not_duplicate :
    DriverService.createDriver [exRowExpired] "d9" ⟨2026, 10, 12⟩ 500
        ⟨"c@example.com", ⟨1990, 2, 3⟩, 900, 900, none⟩ =
      ([exRowExpired], .error (.invalidDriverData .licenseAlreadyExpired)) ∧
    ServiceError.invalidDriverData DriverDataError.licenseAlreadyExpired ≠
      ServiceError.duplicateEmail := by
  refine ⟨by decide, by decide⟩

/-- Claim C8 (amended): when a record with the given email is already stored,
creation always fails and persists nothing, whatever the other field values
are — with the duplicate/conflict condition when the stored record still
passes the read-side re-validation, and with that record's validation error
otherwise. -/
theorem DriverService.createDriver_duplicate_email (db : List DriverRow)
    (newId : String) (nowDate : SimpleDate) (nowMs : Int)
    (data : DriverCreateData) (row : DriverRow)
    (hfind : dbFindRowByEmail db data.email = some row) :
    (∀ d, mapToDomainModel nowDate nowMs row = .ok d →
      DriverService.createDriver db newId nowDate nowMs data =
        (db, .error .duplicateEmail)) ∧
    (∀ e, mapToDomainModel nowDate nowMs row = .error e →
      DriverService.createDriver db newId nowDate nowMs data =
        (db, .error (.invalidDriverData e))) := by
  constructor
  · intro d hmap
    unfold DriverService.createDriver
    rw [repoFindByEmail_ok db data.email row d nowDate nowMs hfind hmap]
  · intro e hmap
    unfold DriverService.createDriver
    rw [repoFindByEmail_err db data.email row e nowDate nowMs hfind hmap]

/-- Witness for the amended C8: re-using a stored (valid) record's email is
rejected with the duplicate condition even though every other field differs. -/
theorem DriverService.createDriver_duplicate_email_witness :
    DriverService.createDriver [exRowFree] "d9" ⟨2026, 10, 12⟩ 500
        ⟨"a@example.com", ⟨1990, 2, 3⟩, 900, 900, some 7⟩ =
      ([exRowFree], .error .duplicateEmail) :=
  (DriverService.createDriver_duplicate_email [exRowFree] "d9" ⟨2026, 10, 12⟩
    500 ⟨"a@example.com", ⟨1990, 2, 3⟩, 900, 900, some 7⟩ exRowFree
    (by decide)).1 (readBack exRowFree 500) (by decide)

/-! ## EmergencyContact (src/unnamed/part_005) -/

/-- The `EmergencyContact` entity: name, relationship and phone. -/
structure EmergencyContact where
  name : String
  relationship : String
  phone : String
deriving DecidableEq, Repr

/-- Embedding of `EmergencyContact.isValid` (part_005 lines 301-308):
`Boolean(name && relationship && phone && phone.length >= 10)` — string
truthiness is non-emptiness and `phone.length` is the length of the phone
STRING (all characters, not only digits). -/
def EmergencyContact.isValid (c : EmergencyContact) : Bool :=
  decide (c.name ≠ "") && decide (c.relationship ≠ "") &&
    decide (c.phone ≠ "") && decide (10 ≤ c.phone.length)

/-- Modelled from the spec: "valid only if phone has ≥10 digits" — the count
of decimal digit characters in the phone string. -/
def digitCount (s : String) : Nat :=
  (s.data.filter Char.isDigit).length

/-- Claim C5 counterexample: a contact whose phone string is 10 characters
long but holds only 7 digits is reported valid, refuting "valid iff the
phone contains at least 10 digits". -/
theorem EmergencyContact.isValid_not_digit_based :
    EmergencyContact.isValid ⟨"Jane", "spouse", "12-34-56-7"⟩ = true ∧
    digitCount "12-34-56-7" = 7 ∧ ¬(10 ≤ digitCount "12-34-56-7") := by
  refine ⟨by decide, by decide, by decide⟩

/-- Claim C5 (amended): the validity check returns true iff name and
relationship are non-empty and the phone STRING has length at least 10
(which forces the phone to be non-empty); the count of digit characters
plays no role. -/
theorem EmergencyContact.isValid_iff (c : EmergencyContact) :
    c.isValid = true ↔
      c.name ≠ "" ∧ c.relationship ≠ "" ∧ 10 ≤ c.phone.length := by
  unfold EmergencyContact.isValid
  simp only [Bool.and_eq_true, decide_eq_true_eq]
  constructor
  · rintro ⟨⟨⟨h1, h2⟩, h3⟩, h4⟩
    exact ⟨h1, h2, h4⟩
  · rintro ⟨h1, h2, h4⟩
    refine ⟨⟨⟨h1, h2⟩, ?_⟩, h4⟩
    intro he
    rw [he] at h4
    exact absurd h4 (by decide)

/-! ## Endorsement (endorsement.entity.ts) -/

/-- The `InvalidEndorsementTypeError`, carrying the offending type string. -/
inductive EndorsementError where
  | invalidEndorsementType (t : String)
deriving DecidableEq, Repr

/-- `Endorsement.VALID_TYPES`. -/
def VALID_TYPES : List String := ["H", "N", "P", "S", "T", "X"]

/-- The `Endorsement` entity: type code and optional expiry date. -/
structure Endorsement where
  type : String
  expiryDate : Option Int
deriving DecidableEq, Repr

/-- JS `toUpperCase`, embedded character-wise (`Char.toUpper` per character;
this covers the ASCII codes the endorsement validation compares against). -/
def jsToUpperCase (s : String) : String :=
  ⟨s.data.map Char.toUpper⟩

/-- Embedding of `Endorsement.validateType` (endorsement.entity.ts lines
101-108): uppercase the candidate, accept iff it is among `VALID_TYPES`. -/
def Endorsement.validateType (t : String) : Except EndorsementError Unit :=
  let upperType := jsToUpperCase t
  if VALID_TYPES.contains upperType then .ok ()
  else .error (.invalidEndorsementType t)

/-- Embedding of `Endorsement.create` (lines 117-135): validate, then store
the uppercased type and the given expiry. -/
def Endorsement.create (t : String) (expiryDate : Option Int) :
    Except EndorsementError Endorsement :=
  match Endorsement.validateType t with
  | .error e => .error e
  | .ok _ => .ok ⟨jsToUpperCase t, expiryDate⟩

/-- The expiry half of `Endorsement.update`: `if (data.expiryDate)` replaces
the stored expiry (a present `Date` object is truthy). -/
def Endorsement.applyExpiry (e : Endorsement) (x? : Option Int) : Endorsement :=
  match x? with
  | some x => { e with expiryDate := some x }
  | none => e

/-- Embedding of `Endorsement.update` (lines 165-175): `if (data.type)` runs
the validation and uppercase-normalization only when a type is supplied AND
truthy — a supplied empty string is falsy and the type branch is skipped —
then the expiry update runs. -/
def Endorsement.update (e : Endorsement) (t? : Option String) (x? : Option Int) :
    Except EndorsementError Endorsement :=
  match t? with
  | some t =>
    if t = "" then .ok (Endorsement.applyExpiry e x?)
    else
      match Endorsement.validateType t with
      | .error err => .error err
      | .ok _ => .ok (Endorsement.applyExpiry { e with type := jsToUpperCase t } x?)
  | none => .ok (Endorsement.applyExpiry e x?)

theorem validateType_eq_ok (t : String)
    (h : VALID_TYPES.contains (jsToUpperCase t) = true) :
    Endorsement.validateType t = .ok () := by
  unfold Endorsement.validateType
  exact if_pos h

theorem validateType_eq_error (t : String)
    (h : VALID_TYPES.contains (jsToUpperCase t) = false) :
    Endorsement.validateType t = .error (.invalidEndorsementType t) := by
  unfold Endorsement.validateType
  exact if_neg (by simp only [h]; exact Bool.false_ne_true)

/-- Claim C9 counterexample: `update` given the (falsy) empty type string
succeeds without raising an invalid-endorsement-type error, although the
uppercase form of `""` is not in the valid set — so "accept exactly when the
uppercase form is in the set" fails for update. -/
theorem Endorsement.update_empty_type_accepted :
    Endorsement.update ⟨"H", none⟩ (some "") none = .ok ⟨"H", none⟩ ∧
    VALID_TYPES.contains (jsToUpperCase "") = false := by
  refine ⟨by decide, by decide⟩

/-- Claim C9 (amended): `create`, and `update` for any supplied NON-EMPTY
type string, uppercase the type and accept it exactly when the uppercase
form is in `{H, N, P, S, T, X}`, failing with an invalid-endorsement-type
error otherwise; `update` treats an absent or empty (falsy) type as not
supplied, succeeding and leaving the stored type unchanged. -/
theorem Endorsement.normalize_spec (t t2 : String) (x? : Option Int)
    (e : Endorsement) (h2 : t2 ≠ "") :
    (VALID_TYPES.contains (jsToUpperCase t) = true →
      Endorsement.create t x? = .ok ⟨jsToUpperCase t, x?⟩) ∧
    (VALID_TYPES.contains (jsToUpperCase t) = false →
      Endorsement.create t x? = .error (.invalidEndorsementType t)) ∧
    (VALID_TYPES.contains (jsToUpperCase t2) = true →
      Endorsement.update e (some t2) x? =
        .ok (Endorsement.applyExpiry { e with type := jsToUpperCase t2 } x?)) ∧
    (VALID_TYPES.contains (jsToUpperCase t2) = false →
      Endorsement.update e (some t2) x? = .error (.invalidEndorsementType t2)) ∧
    Endorsement.update e none x? = .ok (Endorsement.applyExpiry e x?) ∧
    Endorsement.update e (some "") x? = .ok (Endorsement.applyExpiry e x?) := by
  refine ⟨?_, ?_, ?_, ?_, rfl, ?_⟩
  · intro hc
    unfold Endorsement.create
    rw [validateType_eq_ok t hc]
  · intro hc
    unfold Endorsement.create
    rw [validateType_eq_error t hc]
  · intro hc
    simp only [Endorsement.update]
    rw [if_neg h2, validateType_eq_ok t2 hc]
  · intro hc
    simp only [Endorsement.update]
    rw [if_neg h2, validateType_eq_error t2 hc]
  · simp [Endorsement.update]

/-- Witness for the amended C9, mirroring the spec's examples: `"h"`
normalizes to `"H"` on creation and `"Z"` is rejected. -/
theorem Endorsement.normalize_spec_witness :
    Endorsement.create "h" none = .ok ⟨"H", none⟩ ∧
    Endorsement.create "Z" none = .error (.invalidEndorsementType "Z") := by
  have hh := (Endorsement.normalize_spec "h" "P" none ⟨"H", none⟩ (by decide)).1
    (by decide)
  have hz := (Endorsement.normalize_spec "Z" "P" none ⟨"H", none⟩ (by decide)).2.1
    (by decide)
  have hup : jsToUpperCase "h" = "H" := by decide
  rw [hup] at hh
  exact ⟨hh, hz⟩

end Drivers
